import Mathlib

/-!
Verification development for the conversation-management and LLM
response-recovery core of the data-to-paper repository.

The definitions below are a shallow embedding of
`data_to_paper/conversation/conversation_manager.py` (the recovery loop
`get_and_append_assistant_message`, its helper
`_try_get_and_append_chatgpt_response`, and `regenerate_previous_response`)
and of `data_to_paper/servers/openai_models.py` (the `ModelEngine` total
order and its successor tables).  Collaborator modules that the manager
imports but that are not part of the studied sources (conversation.py,
conversation_actions.py, utils/types.py, env.py, servers/chatgpt.py) are
modelled from the specification; each such definition carries a doc comment
starting with `Modelled from the spec:`.
-/

namespace DataToPaper

/-- Message roles, from message.py's `Role` enum as used by the manager
(SYSTEM, USER, ASSISTANT, SURROGATE, COMMENTER). -/
inductive Role where
  | SYSTEM
  | USER
  | ASSISTANT
  | SURROGATE
  | COMMENTER
deriving DecidableEq, Fintype

/-- The model engines of `servers/openai_models.py` (`class ModelEngine`),
listed in enum-declaration order, which is the order used for comparison. -/
inductive ModelEngine where
  | GPT35_TURBO
  | GPT35_TURBO_16
  | GPT4
  | GPT4_TURBO
  | LLAMA_2_7b
  | LLAMA_2_70b
  | CODELLAMA
deriving DecidableEq, Fintype

/-- Position of a model in the enum declaration order (the index that
`IndexOrderedEnum` comparison operators consult). -/
def ModelEngine.idx : ModelEngine → Nat
  | .GPT35_TURBO => 0
  | .GPT35_TURBO_16 => 1
  | .GPT4 => 2
  | .GPT4_TURBO => 3
  | .LLAMA_2_7b => 4
  | .LLAMA_2_70b => 5
  | .CODELLAMA => 6

instance : LT ModelEngine := ⟨fun a b => a.idx < b.idx⟩

instance (a b : ModelEngine) : Decidable (a < b) :=
  inferInstanceAs (Decidable (a.idx < b.idx))

/-- Modelled from the spec: `IndexOrderedEnum.get_next` (utils/types.py, not
among the studied sources): the next model in the total enum order.  The top
model, which has no successor, is mapped to itself; the recovery loop only
calls this under the guard `model < MAX_MODEL_ENGINE`, so that case is never
exercised there. -/
def ModelEngine.get_next : ModelEngine → ModelEngine
  | .GPT35_TURBO => .GPT35_TURBO_16
  | .GPT35_TURBO_16 => .GPT4
  | .GPT4 => .GPT4_TURBO
  | .GPT4_TURBO => .LLAMA_2_7b
  | .LLAMA_2_7b => .LLAMA_2_70b
  | .LLAMA_2_70b => .CODELLAMA
  | .CODELLAMA => .CODELLAMA

/-- The `MODELS_TO_MORE_CONTEXT` table of servers/openai_models.py;
`none` stands for the Python table value `None`. -/
def MODELS_TO_MORE_CONTEXT : ModelEngine → Option ModelEngine
  | .GPT35_TURBO_16 => some .GPT4_TURBO
  | .GPT35_TURBO => some .GPT35_TURBO_16
  | .GPT4 => some .GPT4_TURBO
  | .GPT4_TURBO => none
  | .LLAMA_2_7b => none
  | .LLAMA_2_70b => none
  | .CODELLAMA => none

/-- The `MODELS_TO_MORE_STRENGTH` table of servers/openai_models.py;
`none` stands for the Python table value `None`. -/
def MODELS_TO_MORE_STRENGTH : ModelEngine → Option ModelEngine
  | .GPT35_TURBO_16 => some .GPT4_TURBO
  | .GPT35_TURBO => some .GPT4_TURBO
  | .GPT4 => some .GPT4_TURBO
  | .GPT4_TURBO => none
  | .LLAMA_2_7b => some .LLAMA_2_70b
  | .LLAMA_2_70b => some .CODELLAMA
  | .CODELLAMA => none

/-- `ModelEngine.get_model_with_more_strength`: looks up the strength table;
the Python code raises `ValueError` when the table holds `None`, which the
embedding renders as returning `none`. -/
def ModelEngine.get_model_with_more_strength (m : ModelEngine) : Option ModelEngine :=
  MODELS_TO_MORE_STRENGTH m

/-- `ModelEngine.get_model_with_more_context`: looks up the context table;
the Python code raises `ValueError` when the table holds `None`, which the
embedding renders as returning `none`. -/
def ModelEngine.get_model_with_more_context (m : ModelEngine) : Option ModelEngine :=
  MODELS_TO_MORE_CONTEXT m

/-- `OpenaiCallParameters` of servers/openai_models.py.  Float-valued fields
are represented over `Rat`; a `none` field stands for the Python default
`None`. -/
structure OpenaiCallParameters where
  model_engine : Option ModelEngine := none
  temperature : Option Rat := none
  max_tokens : Option Nat := none
  top_p : Option Rat := none
  frequency_penalty : Option Rat := none
  presence_penalty : Option Rat := none
  response_format : Option String := none
  stop : Option (List String) := none
deriving DecidableEq

/-- `OpenaiCallParameters.is_all_none`: true when every field is `None`
(Python checks that `to_dict`, which drops `None` values, is all-`None`,
i.e. empty). -/
def OpenaiCallParameters.is_all_none (p : OpenaiCallParameters) : Bool :=
  p.model_engine.isNone && p.temperature.isNone && p.max_tokens.isNone &&
  p.top_p.isNone && p.frequency_penalty.isNone && p.presence_penalty.isNone &&
  p.response_format.isNone && p.stop.isNone

/-- A message of message.py, as the manager consumes and constructs it:
`role`, `content`, `tag`, `agent`, the provenance `context` (the messages it
was generated from), the recorded `openai_call_parameters`, and the
code-message bookkeeping fields `is_code` and `previous_code`.  Agents are
represented by name.  The type is an inductive because `context` nests
`List Message`. -/
inductive Message where
  | mk (role : Role) (content : String) (tag : Option String)
      (agent : Option String) (context : List Message)
      (openai_call_parameters : Option OpenaiCallParameters)
      (is_code : Bool) (previous_code : Option String) : Message

def Message.role : Message → Role
  | .mk r _ _ _ _ _ _ _ => r

def Message.content : Message → String
  | .mk _ c _ _ _ _ _ _ => c

def Message.tag : Message → Option String
  | .mk _ _ t _ _ _ _ _ => t

def Message.agent : Message → Option String
  | .mk _ _ _ a _ _ _ _ => a

def Message.context : Message → List Message
  | .mk _ _ _ _ ctx _ _ _ => ctx

def Message.openai_call_parameters : Message → Option OpenaiCallParameters
  | .mk _ _ _ _ _ p _ _ => p

def Message.is_code : Message → Bool
  | .mk _ _ _ _ _ _ b _ => b

def Message.previous_code : Message → Option String
  | .mk _ _ _ _ _ _ _ pc => pc

/-- A conversation: the ordered message sequence (participant tracking is
not needed by the studied operations). -/
structure Conversation where
  messages : List Message

/-- Modelled from the spec: `Conversation.get_chosen_indices_and_messages`
(conversation.py, not among the studied sources): the ordered list of
(zero-based index, message) pairs of the conversation with the hidden
indices removed, preserving relative order. -/
def Conversation.get_chosen_indices_and_messages (c : Conversation)
    (hidden_messages : List Nat) : List (Nat × Message) :=
  c.messages.enum.filter (fun p => !(hidden_messages.contains p.1))

/-- Modelled from the spec: `Conversation.get_chosen_messages`
(conversation.py, not among the studied sources): the ordered message
sequence with the hidden indices removed — the exact payload sent to the
LLM. -/
def Conversation.get_chosen_messages (c : Conversation)
    (hidden_messages : List Nat) : List Message :=
  (c.get_chosen_indices_and_messages hidden_messages).map Prod.snd

/-- Failure kinds of the LLM gateway contract
(rate limit, context-length-exceeded, malformed response, transient). -/
inductive FailureKind where
  | RATE_LIMIT
  | CONTEXT_TOO_LONG
  | MALFORMED
  | TRANSIENT
deriving DecidableEq, Fintype

/-- A typed gateway failure: kind plus detail text. -/
structure LLMFailure where
  kind : FailureKind
  detail : String
deriving DecidableEq

/-- The conversation actions the studied manager code emits.  Only the
payload consulted by the claims is carried: the hidden-message set and the
message (for `AppendChatgptResponse`), the hidden-message set and the
captured failure (for `FailedChatgptResponse`), and the delete used by
`regenerate_previous_response` (designation -1, the last message). -/
inductive ConversationAction where
  | appendChatgptResponse (hidden_messages : List Nat) (message : Message)
  | failedChatgptResponse (hidden_messages : List Nat) (failure : LLMFailure)
  | deleteLastMessage

/-- Modelled from the spec: applying an action to the conversation
(conversation_actions.py, not among the studied sources):
`AppendChatgptResponse` appends its message at the end;
`FailedChatgptResponse` records the attempt without mutating the
conversation; `DeleteMessages(-1)` removes the last message. -/
def applyAction : ConversationAction → Conversation → Conversation
  | .appendChatgptResponse _ m, c => ⟨c.messages ++ [m]⟩
  | .failedChatgptResponse _ _, c => c
  | .deleteLastMessage, c => ⟨c.messages.dropLast⟩

/-- The manager-visible state: the primary conversation and the ordered
action log of `ActionsAndConversations`. -/
structure ManagerState where
  conversation : Conversation
  actions : List ConversationAction

/-- `Actions.apply_action` as the manager uses it: mutate the conversation
by the action and append the action, verbatim, to the ordered action list. -/
def applyAndLog (a : ConversationAction) (st : ManagerState) : ManagerState :=
  ⟨applyAction a st.conversation, st.actions ++ [a]⟩

/-- Recognizer for `FailedChatgptResponse` actions, used to count the
failure records in the log. -/
def isFailedAction : ConversationAction → Bool
  | .failedChatgptResponse _ _ => true
  | _ => false

/-- Number of `FailedChatgptResponse` actions in an action list. -/
def numFailed (l : List ConversationAction) : Nat :=
  (l.filter isFailedAction).length

/-- `add_label_to_first_triple_quotes_if_missing` (run_gpt_code/code_utils.py).
Modelled from the spec: the code post-processing step that "ensures code
blocks are labeled": when the first triple-backquote fence is immediately
followed by a newline (no language label), insert the label. -/
def add_label_to_first_triple_quotes_if_missing (content label : String) : String :=
  match content.splitOn "\x60\x60\x60" with
  | first :: second :: rest =>
      if second.startsWith "\n" then
        String.intercalate "\x60\x60\x60" (first :: (label ++ second) :: rest)
      else content
  | _ => content

/-- Modelled from the spec: `convert_general_message_designation_to_list`
(message_designation.py, not among the studied sources): a caller-supplied
hidden-message designation is either absent (meaning no hidden messages) or
a list of zero-based indices. -/
def convert_general_message_designation_to_list :
    Option (List Nat) → List Nat
  | none => []
  | some l => l

/-- The static collaborators of one `get_and_append_assistant_message` call:
the LLM gateway (`try_get_chatgpt_response` of servers/chatgpt.py, an
external collaborator returning, per call attempt, either response text or a
typed failure), the process-wide `DEFAULT_MODEL_ENGINE` and
`MAX_MODEL_ENGINE` of env.py, and the manager's `assistant_agent`. -/
structure ManagerConfig where
  gateway : Nat → Except LLMFailure String
  default_model_engine : ModelEngine
  max_model_engine : ModelEngine
  assistant_agent : Option String := none

/-- `_try_get_and_append_chatgpt_response`: send the conversation minus the
hidden messages to the gateway (`response` is the gateway's reply for this
attempt).  On failure, apply and log a `FailedChatgptResponse` carrying the
hidden set and the exception, and return the exception.  On success,
optionally label code blocks, build the assistant `Message` whose `context`
is the exact message list sent, recording the call parameters unless all are
`None`, apply and log an `AppendChatgptResponse`, and return the message. -/
def try_get_and_append_chatgpt_response (cfg : ManagerConfig)
    (response : Except LLMFailure String) (tag : Option String)
    (is_code : Bool) (previous_code : Option String)
    (hidden_messages : List Nat)
    (openai_call_parameters : OpenaiCallParameters)
    (st : ManagerState) : (Except LLMFailure Message) × ManagerState :=
  let messages := st.conversation.get_chosen_messages hidden_messages
  match response with
  | Except.error e =>
      (Except.error e,
       applyAndLog (ConversationAction.failedChatgptResponse hidden_messages e) st)
  | Except.ok rawContent =>
      let content :=
        if is_code then add_label_to_first_triple_quotes_if_missing rawContent "python"
        else rawContent
      let message := Message.mk Role.ASSISTANT content tag cfg.assistant_agent messages
        (if openai_call_parameters.is_all_none then none else some openai_call_parameters)
        is_code previous_code
      (Except.ok message,
       applyAndLog (ConversationAction.appendChatgptResponse hidden_messages message) st)

/-- The outcome of one `get_and_append_assistant_message` call: the returned
message or the raised error text, the final manager state, the number of
gateway call attempts issued, the final value of the loop-local
`actual_hidden_messages` list, and the final value of the caller-derived
`hidden_messages` list (kept separate from `actual_hidden_messages` by the
source's `.copy()`). -/
structure RunResult where
  result : Except String Message
  state : ManagerState
  attempts : Nat
  actual_hidden_messages : List Nat
  hidden_messages : List Nat

/-- The `while True` recovery loop body of `get_and_append_assistant_message`
(conversation_manager.py lines 203-226), as a recursion: attempt the LLM
call; on success return the message; otherwise, if the current model is below
`MAX_MODEL_ENGINE`, bump the model and retry; otherwise, if at most one
visible entry remains, raise; otherwise pop entry 1 of the visible list, add
its conversation index to `actual_hidden_messages`, and retry.
`hidden_messages` is the caller-derived list, never written to by the loop,
mirroring that the source appends only to its `.copy()`. -/
def recoveryLoop (cfg : ManagerConfig) (tag : Option String)
    (is_code : Bool) (previous_code : Option String)
    (hidden_messages : List Nat) (attempt : Nat) (model : ModelEngine)
    (openai_call_parameters : OpenaiCallParameters)
    (indices_and_messages : List (Nat × Message))
    (actual_hidden_messages : List Nat) (st : ManagerState) : RunResult :=
  match try_get_and_append_chatgpt_response cfg (cfg.gateway attempt) tag is_code
      previous_code actual_hidden_messages openai_call_parameters st with
  | (Except.ok m, st') =>
      ⟨Except.ok m, st', 1, actual_hidden_messages, hidden_messages⟩
  | (Except.error _, st') =>
      if hlt : model < cfg.max_model_engine then
        let next := model.get_next
        let out := recoveryLoop cfg tag is_code previous_code hidden_messages
          (attempt + 1) next { openai_call_parameters with model_engine := some next }
          indices_and_messages actual_hidden_messages st'
        { out with attempts := out.attempts + 1 }
      else if hlen : indices_and_messages.length ≤ 1 then
        ⟨Except.error "Failed accessing openai despite removing all messages from context.",
         st', 1, actual_hidden_messages, hidden_messages⟩
      else
        let popped := indices_and_messages.get ⟨1, by omega⟩
        let out := recoveryLoop cfg tag is_code previous_code hidden_messages
          (attempt + 1) model openai_call_parameters
          (indices_and_messages.eraseIdx 1)
          (actual_hidden_messages ++ [popped.1]) st'
        { out with attempts := out.attempts + 1 }
termination_by (cfg.max_model_engine.idx - model.idx) + indices_and_messages.length
decreasing_by
  · have h1 : model.get_next.idx = model.idx + 1 := by
      have hall : ∀ a b : ModelEngine, a < b → a.get_next.idx = a.idx + 1 := by decide
      exact hall model cfg.max_model_engine hlt
    have h2 : model.idx < cfg.max_model_engine.idx := hlt
    omega
  · have h3 : (indices_and_messages.eraseIdx 1).length =
        indices_and_messages.length - 1 := by
      rw [List.length_eraseIdx, if_pos (by omega)]
    omega

/-- `get_and_append_assistant_message` (conversation_manager.py lines
179-226): convert the hidden-message designation to a list, compute the
visible (index, message) list, copy the hidden list into
`actual_hidden_messages`, resolve the model (explicit parameter or
process-wide default), and run the recovery loop.  The manager is modelled
with no web mirror conversation, so the set-typing-agent step (which fires
only when a web conversation exists) is a no-op. -/
def get_and_append_assistant_message (cfg : ManagerConfig) (tag : Option String)
    (is_code : Bool) (previous_code : Option String)
    (hidden_messages : Option (List Nat))
    (openai_call_parameters : OpenaiCallParameters)
    (st : ManagerState) : RunResult :=
  let hiddenList := convert_general_message_designation_to_list hidden_messages
  let indices_and_messages := st.conversation.get_chosen_indices_and_messages hiddenList
  let actual_hidden_messages := hiddenList
  let model := openai_call_parameters.model_engine.getD cfg.default_model_engine
  recoveryLoop cfg tag is_code previous_code hiddenList 0 model
    openai_call_parameters indices_and_messages actual_hidden_messages st

/-- `delete_messages(-1)` as issued by `regenerate_previous_response`:
apply and log the delete-last action. -/
def delete_last_message (st : ManagerState) : ManagerState :=
  applyAndLog ConversationAction.deleteLastMessage st

/-- `regenerate_previous_response` (conversation_manager.py lines 228-242):
require that the last logged action is an `AppendChatgptResponse` and the
conversation's last message is an assistant message (the source's `assert`
statements, rendered as returning `none` on violation); read the call
parameters from that last message, delete it, and re-run
`get_and_append_assistant_message` with the same tag, the code fields of the
deleted message, and the hidden-message set recorded on the logged action. -/
def regenerate_previous_response (cfg : ManagerConfig) (st : ManagerState) :
    Option RunResult :=
  match st.actions.getLast?, st.conversation.messages.getLast? with
  | some (ConversationAction.appendChatgptResponse hidden _), some lastMessage =>
      if lastMessage.role = Role.ASSISTANT then
        let openai_call_parameters := lastMessage.openai_call_parameters.getD {}
        some (get_and_append_assistant_message cfg lastMessage.tag
          lastMessage.is_code
          (if lastMessage.is_code then lastMessage.previous_code else none)
          (some hidden) openai_call_parameters (delete_last_message st))
      else none
  | _, _ => none

/-- Concrete system message used in the test scenarios. -/
def sysMessage : Message :=
  Message.mk Role.SYSTEM "You are a helpful scientist." (some "system_prompt")
    none [] none false none

/-- Concrete user message used in the test scenarios. -/
def userMessage1 : Message :=
  Message.mk Role.USER "Q1" none none [] none false none

/-- Concrete assistant message used in the test scenarios. -/
def assistantMessage1 : Message :=
  Message.mk Role.ASSISTANT "A1" none none [] none false none

/-- Concrete second user message used in the test scenarios. -/
def userMessage2 : Message :=
  Message.mk Role.USER "Q2" none none [] none false none

/-- A gateway that fails every attempt with CONTEXT_TOO_LONG, with the
starting default model already at `MAX_MODEL_ENGINE`. -/
def alwaysFailConfig : ManagerConfig :=
  { gateway := fun _ => Except.error ⟨FailureKind.CONTEXT_TOO_LONG, "context too long"⟩
    default_model_engine := ModelEngine.GPT4_TURBO
    max_model_engine := ModelEngine.GPT4_TURBO }

/-- The two-message conversation [System, User("Q1")] with an empty log. -/
def twoMessageState : ManagerState := ⟨⟨[sysMessage, userMessage1]⟩, []⟩

/-- A gateway that fails every attempt, with an escalation step still
available from the starting model GPT4 up to MAX = GPT4_TURBO. -/
def escalatingFailConfig : ManagerConfig :=
  { gateway := fun _ => Except.error ⟨FailureKind.RATE_LIMIT, "rate limited"⟩
    default_model_engine := ModelEngine.GPT4
    max_model_engine := ModelEngine.GPT4_TURBO }

/-- The three-message conversation [System, User("Q1"), Assistant("A1")]
with an empty log. -/
def threeMessageState : ManagerState :=
  ⟨⟨[sysMessage, userMessage1, assistantMessage1]⟩, []⟩

/-- The four-message conversation [System, User, Assistant, User] with an
empty log. -/
def fourMessageState : ManagerState :=
  ⟨⟨[sysMessage, userMessage1, assistantMessage1, userMessage2]⟩, []⟩

/-- A gateway whose first call fails and whose later calls succeed, with a
stronger model (GPT4_TURBO) above the starting default GPT4. -/
def secondTryConfig : ManagerConfig :=
  { gateway := fun attempt =>
      if attempt = 0 then Except.error ⟨FailureKind.RATE_LIMIT, "rate limited"⟩
      else Except.ok "The answer"
    default_model_engine := ModelEngine.GPT4
    max_model_engine := ModelEngine.GPT4_TURBO }

/-- The assistant message the second (escalated) attempt of
`secondTryConfig` produces on `fourMessageState`: its context is the full
four-message input and it records the bumped model engine. -/
def responseMessage : Message :=
  Message.mk Role.ASSISTANT "The answer" none none
    [sysMessage, userMessage1, assistantMessage1, userMessage2]
    (some { model_engine := some ModelEngine.GPT4_TURBO }) false none

/-- The assistant message tagged "draft1" whose regeneration is tested. -/
def prevAssistant : Message :=
  Message.mk Role.ASSISTANT "draft answer" (some "draft1") none [] none false none

/-- A conversation ending in the tagged assistant message, whose last logged
action is the `AppendChatgptResponse` that produced it (recording
hidden-messages = [2]). -/
def regeneratedState : ManagerState :=
  ⟨⟨[sysMessage, userMessage1, prevAssistant]⟩,
   [ConversationAction.appendChatgptResponse [2] prevAssistant]⟩

/-- A gateway that succeeds on every attempt. -/
def alwaysOkConfig : ManagerConfig :=
  { gateway := fun _ => Except.ok "regenerated answer"
    default_model_engine := ModelEngine.GPT4
    max_model_engine := ModelEngine.GPT4_TURBO }

theorem ModelEngine.lt_iff_idx (a b : ModelEngine) : a < b ↔ a.idx < b.idx := Iff.rfl

/-- One model-escalation step raises the enum index by exactly one. -/
theorem ModelEngine.idx_get_next_of_lt {m n : ModelEngine} (h : m < n) :
    m.get_next.idx = m.idx + 1 := by
  have hall : ∀ a b : ModelEngine, a < b → a.get_next.idx = a.idx + 1 := by decide
  exact hall m n h

theorem numFailed_append_failed (l : List ConversationAction) (h : List Nat) (e : LLMFailure) :
    numFailed (l ++ [ConversationAction.failedChatgptResponse h e]) = numFailed l + 1 := by
  simp [numFailed, List.filter_append, isFailedAction]

theorem numFailed_append_response (l : List ConversationAction) (h : List Nat) (m : Message) :
    numFailed (l ++ [ConversationAction.appendChatgptResponse h m]) = numFailed l := by
  simp [numFailed, List.filter_append, isFailedAction]

theorem try_ok_inv {cfg : ManagerConfig} {r : Except LLMFailure String}
    {tag : Option String} {is_code : Bool} {previous_code : Option String}
    {hidden_messages : List Nat} {p : OpenaiCallParameters} {st : ManagerState}
    {m : Message} {st' : ManagerState}
    (h : try_get_and_append_chatgpt_response cfg r tag is_code previous_code
      hidden_messages p st = (Except.ok m, st')) :
    st'.conversation.messages = st.conversation.messages ++ [m] ∧
    st'.actions = st.actions ++ [ConversationAction.appendChatgptResponse hidden_messages m] ∧
    m.role = Role.ASSISTANT ∧ m.tag = tag ∧
    m.context = st.conversation.get_chosen_messages hidden_messages := by
  cases r with
  | error e => simp [try_get_and_append_chatgpt_response] at h
  | ok c =>
    simp only [try_get_and_append_chatgpt_response, Prod.mk.injEq, Except.ok.injEq] at h
    obtain ⟨hm, hst⟩ := h
    subst hm
    subst hst
    refine ⟨rfl, rfl, rfl, rfl, rfl⟩

theorem try_error_inv {cfg : ManagerConfig} {r : Except LLMFailure String}
    {tag : Option String} {is_code : Bool} {previous_code : Option String}
    {hidden_messages : List Nat} {p : OpenaiCallParameters} {st : ManagerState}
    {e : LLMFailure} {st' : ManagerState}
    (h : try_get_and_append_chatgpt_response cfg r tag is_code previous_code
      hidden_messages p st = (Except.error e, st')) :
    st'.conversation = st.conversation ∧
    st'.actions = st.actions ++ [ConversationAction.failedChatgptResponse hidden_messages e] := by
  cases r with
  | ok c => simp [try_get_and_append_chatgpt_response] at h
  | error e' =>
    simp only [try_get_and_append_chatgpt_response, Prod.mk.injEq, Except.error.injEq] at h
    obtain ⟨he, hst⟩ := h
    subst he
    subst hst
    exact ⟨rfl, rfl⟩



theorem get_one_mem_tail {α : Type} (l : List α) (h : 1 < l.length) :
    l.get ⟨1, h⟩ ∈ l.tail := by
  match l with
  | a :: rest =>
    simp only [List.get, List.tail_cons]
    exact List.get_mem rest 0 _

theorem mem_tail_eraseIdx_one {α : Type} {l : List α} {q : α}
    (h : q ∈ (l.eraseIdx 1).tail) : q ∈ l.tail := by
  match l with
  | [] => simp [List.eraseIdx] at h
  | a :: rest =>
    simp only [List.eraseIdx, List.tail_cons] at h ⊢
    exact List.Sublist.mem h (List.eraseIdx_sublist rest 0)

theorem recoveryLoop_spec (cfg : ManagerConfig) (tag : Option String)
    (is_code : Bool) (previous_code : Option String) (hidden_messages : List Nat)
    (attempt : Nat) (model : ModelEngine) (p : OpenaiCallParameters)
    (indices : List (Nat × Message)) (actual : List Nat) (st : ManagerState) :
    (recoveryLoop cfg tag is_code previous_code hidden_messages attempt model p
        indices actual st).hidden_messages = hidden_messages ∧
    1 ≤ (recoveryLoop cfg tag is_code previous_code hidden_messages attempt model p
        indices actual st).attempts ∧
    (∀ m, (recoveryLoop cfg tag is_code previous_code hidden_messages attempt model p
        indices actual st).result = Except.ok m →
      (recoveryLoop cfg tag is_code previous_code hidden_messages attempt model p
        indices actual st).state.conversation.messages = st.conversation.messages ++ [m] ∧
      m.role = Role.ASSISTANT ∧ m.tag = tag ∧
      m.context = st.conversation.get_chosen_messages
        (recoveryLoop cfg tag is_code previous_code hidden_messages attempt model p
          indices actual st).actual_hidden_messages ∧
      numFailed (recoveryLoop cfg tag is_code previous_code hidden_messages attempt model p
        indices actual st).state.actions = numFailed st.actions +
        ((recoveryLoop cfg tag is_code previous_code hidden_messages attempt model p
          indices actual st).attempts - 1) ∧
      (recoveryLoop cfg tag is_code previous_code hidden_messages attempt model p
        indices actual st).state.actions.getLast? =
        some (ConversationAction.appendChatgptResponse
          (recoveryLoop cfg tag is_code previous_code hidden_messages attempt model p
            indices actual st).actual_hidden_messages m)) ∧
    (∀ e, (recoveryLoop cfg tag is_code previous_code hidden_messages attempt model p
        indices actual st).result = Except.error e →
      (recoveryLoop cfg tag is_code previous_code hidden_messages attempt model p
        indices actual st).state.conversation.messages = st.conversation.messages ∧
      numFailed (recoveryLoop cfg tag is_code previous_code hidden_messages attempt model p
        indices actual st).state.actions = numFailed st.actions +
        (recoveryLoop cfg tag is_code previous_code hidden_messages attempt model p
          indices actual st).attempts) ∧
    (∃ added, (recoveryLoop cfg tag is_code previous_code hidden_messages attempt model p
        indices actual st).actual_hidden_messages = actual ++ added ∧
      ∀ i ∈ added, ∃ q ∈ indices.tail, q.1 = i) := by
  induction attempt, model, p, indices, actual, st
    using recoveryLoop.induct cfg tag is_code previous_code hidden_messages with
  | case1 attempt model p indices actual st m st' htry =>
    rw [recoveryLoop]
    rw [htry]
    obtain ⟨hconv, hacts, hrole, htag, hctx⟩ := try_ok_inv htry
    refine ⟨rfl, le_refl 1, ?_, ?_, [], by simp, by simp⟩
    · intro m' hm'
      obtain rfl : m = m' := by simpa using hm'
      refine ⟨hconv, hrole, htag, hctx, ?_, ?_⟩
      · simp [hacts, numFailed_append_response]
      · simp [hacts, List.getLast?_concat]
    · intro e he
      simp at he
  | case2 attempt model p indices actual st e st' htry hlt next ih =>
    rw [recoveryLoop, htry]
    dsimp only
    rw [dif_pos hlt]
    dsimp only
    rw [show next = model.get_next from rfl] at ih
    obtain ⟨hconv, hacts⟩ := try_error_inv htry
    obtain ⟨ih_hid, ih_att, ih_ok, ih_err, added, ih_added, ih_added_src⟩ := ih
    refine ⟨ih_hid, by omega, ?_, ?_, added, ih_added, ih_added_src⟩
    · intro m hm
      obtain ⟨c1, c2, c3, c4, c5, c6⟩ := ih_ok m hm
      refine ⟨?_, c2, c3, ?_, ?_, c6⟩
      · rw [c1, hconv]
      · rw [c4, hconv]
      · rw [c5, hacts, numFailed_append_failed]
        omega
    · intro e' he'
      obtain ⟨d1, d2⟩ := ih_err e' he'
      refine ⟨?_, ?_⟩
      · rw [d1, hconv]
      · rw [d2, hacts, numFailed_append_failed]
        omega
  | case3 attempt model p indices actual st e st' htry hlt hlen =>
    rw [recoveryLoop, htry]
    dsimp only
    rw [dif_neg hlt, dif_pos hlen]
    obtain ⟨hconv, hacts⟩ := try_error_inv htry
    refine ⟨rfl, le_refl 1, ?_, ?_, [], by simp, by simp⟩
    · intro m hm
      simp at hm
    · intro e' he'
      refine ⟨by rw [hconv], ?_⟩
      rw [hacts, numFailed_append_failed]
  | case4 attempt model p indices actual st e st' htry hlt hlen popped ih =>
    rw [recoveryLoop, htry]
    dsimp only
    rw [dif_neg hlt, dif_neg hlen]
    dsimp only
    rw [show popped = indices.get ⟨1, by omega⟩ from rfl] at ih
    obtain ⟨hconv, hacts⟩ := try_error_inv htry
    obtain ⟨ih_hid, ih_att, ih_ok, ih_err, added, ih_added, ih_added_src⟩ := ih
    refine ⟨ih_hid, by omega, ?_, ?_,
      (indices.get ⟨1, by omega⟩).1 :: added, ?_, ?_⟩
    · intro m hm
      obtain ⟨c1, c2, c3, c4, c5, c6⟩ := ih_ok m hm
      refine ⟨?_, c2, c3, ?_, ?_, c6⟩
      · rw [c1, hconv]
      · rw [c4, hconv]
      · rw [c5, hacts, numFailed_append_failed]
        omega
    · intro e' he'
      obtain ⟨d1, d2⟩ := ih_err e' he'
      refine ⟨?_, ?_⟩
      · rw [d1, hconv]
      · rw [d2, hacts, numFailed_append_failed]
        omega
    · rw [ih_added]
      simp
    · intro i hi
      rw [List.mem_cons] at hi
      rcases hi with rfl | hi
      · exact ⟨indices.get ⟨1, by omega⟩, get_one_mem_tail indices (by omega), rfl⟩
      · obtain ⟨q, hq, hq2⟩ := ih_added_src i hi
        exact ⟨q, mem_tail_eraseIdx_one hq, hq2⟩


theorem recoveryLoop_attempts_le (cfg : ManagerConfig) (tag : Option String)
    (is_code : Bool) (previous_code : Option String) (hidden_messages : List Nat)
    (attempt : Nat) (model : ModelEngine) (p : OpenaiCallParameters)
    (indices : List (Nat × Message)) (actual : List Nat) (st : ManagerState) :
    1 ≤ indices.length →
    (recoveryLoop cfg tag is_code previous_code hidden_messages attempt model p
      indices actual st).attempts ≤
      (cfg.max_model_engine.idx - model.idx) + indices.length := by
  induction attempt, model, p, indices, actual, st
    using recoveryLoop.induct cfg tag is_code previous_code hidden_messages with
  | case1 attempt model p indices actual st m st' htry =>
    intro h
    rw [recoveryLoop, htry]
    dsimp only
    omega
  | case2 attempt model p indices actual st e st' htry hlt next ih =>
    intro h
    rw [recoveryLoop, htry]
    dsimp only
    rw [dif_pos hlt]
    dsimp only
    rw [show next = model.get_next from rfl] at ih
    have h1 := ModelEngine.idx_get_next_of_lt hlt
    have h2 := (ModelEngine.lt_iff_idx model cfg.max_model_engine).mp hlt
    have := ih h
    omega
  | case3 attempt model p indices actual st e st' htry hlt hlen =>
    intro h
    rw [recoveryLoop, htry]
    dsimp only
    rw [dif_neg hlt, dif_pos hlen]
    dsimp only
    omega
  | case4 attempt model p indices actual st e st' htry hlt hlen popped ih =>
    intro h
    rw [recoveryLoop, htry]
    dsimp only
    rw [dif_neg hlt, dif_neg hlen]
    dsimp only
    rw [show popped = indices.get ⟨1, by omega⟩ from rfl] at ih
    have hle : cfg.max_model_engine.idx ≤ model.idx := by
      by_contra hc
      exact hlt ((ModelEngine.lt_iff_idx model cfg.max_model_engine).mpr (by omega))
    have herase : (indices.eraseIdx 1).length = indices.length - 1 := by
      rw [List.length_eraseIdx, if_pos (by omega)]
    have := ih (by omega)
    omega


theorem fst_ge_of_mem_enumFrom {n : Nat} {ms : List Message} {q : Nat × Message}
    (h : q ∈ List.enumFrom n ms) : n ≤ q.1 := by
  induction ms generalizing n with
  | nil => simp [List.enumFrom] at h
  | cons m rest ih =>
    simp only [List.enumFrom, List.mem_cons] at h
    rcases h with rfl | h
    · exact le_refl n
    · exact Nat.le_of_succ_le (ih h)

theorem chosen_tail_fst_ne_zero (c : Conversation) (hidden : List Nat) :
    ∀ q ∈ (c.get_chosen_indices_and_messages hidden).tail, q.1 ≠ 0 := by
  intro q hq
  unfold Conversation.get_chosen_indices_and_messages at hq
  match hc : c.messages with
  | [] => rw [hc] at hq; simp [List.enum] at hq
  | a :: rest =>
    rw [hc] at hq
    have henum : (a :: rest).enum = (0, a) :: List.enumFrom 1 rest := by
      simp [List.enum, List.enumFrom]
    rw [henum, List.filter_cons] at hq
    by_cases hf : !(hidden.contains (0, a).1)
    · rw [if_pos hf] at hq
      simp only [List.tail_cons] at hq
      have := (List.mem_filter.mp hq).1
      have := fst_ge_of_mem_enumFrom this
      omega
    · rw [if_neg hf] at hq
      have hq2 := List.mem_of_mem_tail hq
      have := (List.mem_filter.mp hq2).1
      have := fst_ge_of_mem_enumFrom this
      omega

theorem recoveryLoop_bump_eq (cfg : ManagerConfig) (tag : Option String)
    (is_code : Bool) (previous_code : Option String) (hidden_messages : List Nat)
    (attempt : Nat) (model : ModelEngine) (p : OpenaiCallParameters)
    (indices : List (Nat × Message)) (actual : List Nat) (st : ManagerState)
    (e : LLMFailure) (hgw : cfg.gateway attempt = Except.error e)
    (hlt : model < cfg.max_model_engine) :
    recoveryLoop cfg tag is_code previous_code hidden_messages attempt model p
      indices actual st =
    { recoveryLoop cfg tag is_code previous_code hidden_messages (attempt + 1)
        model.get_next { p with model_engine := some model.get_next }
        indices actual
        ⟨st.conversation,
         st.actions ++ [ConversationAction.failedChatgptResponse actual e]⟩ with
      attempts := (recoveryLoop cfg tag is_code previous_code hidden_messages (attempt + 1)
        model.get_next { p with model_engine := some model.get_next }
        indices actual
        ⟨st.conversation,
         st.actions ++ [ConversationAction.failedChatgptResponse actual e]⟩).attempts + 1 } := by
  have htry : try_get_and_append_chatgpt_response cfg (Except.error e) tag is_code
      previous_code actual p st =
      (Except.error e,
       ⟨st.conversation,
        st.actions ++ [ConversationAction.failedChatgptResponse actual e]⟩) := rfl
  rw [recoveryLoop, hgw, htry]
  dsimp only
  rw [dif_pos hlt]

theorem recoveryLoop_shrink_eq (cfg : ManagerConfig) (tag : Option String)
    (is_code : Bool) (previous_code : Option String) (hidden_messages : List Nat)
    (attempt : Nat) (model : ModelEngine) (p : OpenaiCallParameters)
    (indices : List (Nat × Message)) (actual : List Nat) (st : ManagerState)
    (e : LLMFailure) (hgw : cfg.gateway attempt = Except.error e)
    (hlt : ¬ model < cfg.max_model_engine) (hlen : 1 < indices.length) :
    recoveryLoop cfg tag is_code previous_code hidden_messages attempt model p
      indices actual st =
    { recoveryLoop cfg tag is_code previous_code hidden_messages (attempt + 1)
        model p (indices.eraseIdx 1)
        (actual ++ [(indices.get ⟨1, hlen⟩).1])
        ⟨st.conversation,
         st.actions ++ [ConversationAction.failedChatgptResponse actual e]⟩ with
      attempts := (recoveryLoop cfg tag is_code previous_code hidden_messages (attempt + 1)
        model p (indices.eraseIdx 1)
        (actual ++ [(indices.get ⟨1, hlen⟩).1])
        ⟨st.conversation,
         st.actions ++ [ConversationAction.failedChatgptResponse actual e]⟩).attempts + 1 } := by
  have htry : try_get_and_append_chatgpt_response cfg (Except.error e) tag is_code
      previous_code actual p st =
      (Except.error e,
       ⟨st.conversation,
        st.actions ++ [ConversationAction.failedChatgptResponse actual e]⟩) := rfl
  rw [recoveryLoop, hgw, htry]
  dsimp only
  rw [dif_neg hlt, dif_neg (by omega : ¬ indices.length ≤ 1)]


/-- C9: For every model in the model ordering,
`get_model_with_more_context` and `get_model_with_more_strength` each return
either a model strictly greater in the enum total order or an absent value
(the embedding of the `ValueError` raise), and the absent value occurs
exactly for the models whose table row is `None` — the models with no such
successor. -/
theorem model_successors_strictly_greater :
    ∀ m : ModelEngine,
      (m.get_model_with_more_strength).elim True (fun n => m < n) ∧
      (m.get_model_with_more_context).elim True (fun n => m < n) ∧
      ((m.get_model_with_more_strength = none) ↔
        (m = ModelEngine.GPT4_TURBO ∨ m = ModelEngine.CODELLAMA)) ∧
      ((m.get_model_with_more_context = none) ↔
        (m = ModelEngine.GPT4_TURBO ∨ m = ModelEngine.LLAMA_2_7b ∨
         m = ModelEngine.LLAMA_2_70b ∨ m = ModelEngine.CODELLAMA)) := by
  intro m
  refine ⟨?_, ?_, ?_, ?_⟩ <;>
    (cases m <;> simp +decide [ModelEngine.get_model_with_more_strength,
      ModelEngine.get_model_with_more_context, MODELS_TO_MORE_STRENGTH,
      MODELS_TO_MORE_CONTEXT])


/-- C1: Every call to `get_and_append_assistant_message` (any conversation,
hidden-message designation, call parameters, and sequence of gateway
responses) either returns an assistant `Message` appended at the end of the
conversation, or raises; when it raises, the conversation's message sequence
is exactly what it was before the call, and every one of the failed attempts
is recorded in the action log as a `FailedChatgptResponse`. -/
theorem get_and_append_returns_appended_or_raises_unchanged (cfg : ManagerConfig)
    (tag : Option String) (is_code : Bool) (previous_code : Option String)
    (hidden_messages : Option (List Nat)) (p : OpenaiCallParameters)
    (st : ManagerState) :
    (∃ m, (get_and_append_assistant_message cfg tag is_code previous_code
        hidden_messages p st).result = Except.ok m ∧
      (get_and_append_assistant_message cfg tag is_code previous_code
        hidden_messages p st).state.conversation.messages =
        st.conversation.messages ++ [m] ∧
      m.role = Role.ASSISTANT ∧
      numFailed (get_and_append_assistant_message cfg tag is_code previous_code
        hidden_messages p st).state.actions = numFailed st.actions +
        ((get_and_append_assistant_message cfg tag is_code previous_code
          hidden_messages p st).attempts - 1)) ∨
    (∃ e, (get_and_append_assistant_message cfg tag is_code previous_code
        hidden_messages p st).result = Except.error e ∧
      (get_and_append_assistant_message cfg tag is_code previous_code
        hidden_messages p st).state.conversation.messages =
        st.conversation.messages ∧
      numFailed (get_and_append_assistant_message cfg tag is_code previous_code
        hidden_messages p st).state.actions = numFailed st.actions +
        (get_and_append_assistant_message cfg tag is_code previous_code
          hidden_messages p st).attempts) := by
  obtain ⟨h1, h2, hok, herr, _⟩ := recoveryLoop_spec cfg tag is_code previous_code
    (convert_general_message_designation_to_list hidden_messages) 0
    (p.model_engine.getD cfg.default_model_engine) p
    (st.conversation.get_chosen_indices_and_messages
      (convert_general_message_designation_to_list hidden_messages))
    (convert_general_message_designation_to_list hidden_messages) st
  rw [show get_and_append_assistant_message cfg tag is_code previous_code
      hidden_messages p st = recoveryLoop cfg tag is_code previous_code
      (convert_general_message_designation_to_list hidden_messages) 0
      (p.model_engine.getD cfg.default_model_engine) p
      (st.conversation.get_chosen_indices_and_messages
        (convert_general_message_designation_to_list hidden_messages))
      (convert_general_message_designation_to_list hidden_messages) st from rfl]
  rcases hres : (recoveryLoop cfg tag is_code previous_code
      (convert_general_message_designation_to_list hidden_messages) 0
      (p.model_engine.getD cfg.default_model_engine) p
      (st.conversation.get_chosen_indices_and_messages
        (convert_general_message_designation_to_list hidden_messages))
      (convert_general_message_designation_to_list hidden_messages) st).result
    with e | m
  · right
    exact ⟨e, rfl, (herr e hres).1, (herr e hres).2⟩
  · left
    obtain ⟨c1, c2, c3, _, c5, _⟩ := hok m hres
    exact ⟨m, rfl, c1, c2, c5⟩


/-- C10: A call to `get_and_append_assistant_message` leaves the
caller-supplied hidden-message designation unchanged whether it returns or
raises: the loop-local `hidden_messages` list still equals the converted
caller designation at the end of the run, and the context-shrink branch
appended indices only to the internal `actual_hidden_messages` copy, which
extends that list. -/
theorem caller_hidden_designation_unchanged (cfg : ManagerConfig)
    (tag : Option String) (is_code : Bool) (previous_code : Option String)
    (hidden_messages : Option (List Nat)) (p : OpenaiCallParameters)
    (st : ManagerState) :
    (get_and_append_assistant_message cfg tag is_code previous_code
        hidden_messages p st).hidden_messages =
      convert_general_message_designation_to_list hidden_messages ∧
    ∃ added, (get_and_append_assistant_message cfg tag is_code previous_code
        hidden_messages p st).actual_hidden_messages =
      convert_general_message_designation_to_list hidden_messages ++ added := by
  obtain ⟨h1, _, _, _, added, hadd, _⟩ := recoveryLoop_spec cfg tag is_code previous_code
    (convert_general_message_designation_to_list hidden_messages) 0
    (p.model_engine.getD cfg.default_model_engine) p
    (st.conversation.get_chosen_indices_and_messages
      (convert_general_message_designation_to_list hidden_messages))
    (convert_general_message_designation_to_list hidden_messages) st
  exact ⟨h1, added, hadd⟩

/-- C3: For a conversation with `k` visible (non-hidden) entries, `k ≥ 1`,
and `m` model-escalation steps available from the starting model up to
`MAX_MODEL_ENGINE` (the models strictly above the starting model in the
ordering that the loop can reach), `get_and_append_assistant_message` issues
at most `m + k` gateway call attempts before reaching a terminal state,
regardless of the sequence of gateway failures. -/
theorem escalation_attempt_bound (cfg : ManagerConfig)
    (tag : Option String) (is_code : Bool) (previous_code : Option String)
    (hidden_messages : Option (List Nat)) (p : OpenaiCallParameters)
    (st : ManagerState)
    (h : 1 ≤ (st.conversation.get_chosen_indices_and_messages
      (convert_general_message_designation_to_list hidden_messages)).length) :
    (get_and_append_assistant_message cfg tag is_code previous_code
        hidden_messages p st).attempts ≤
      (cfg.max_model_engine.idx - (p.model_engine.getD cfg.default_model_engine).idx) +
      (st.conversation.get_chosen_indices_and_messages
        (convert_general_message_designation_to_list hidden_messages)).length :=
  recoveryLoop_attempts_le cfg tag is_code previous_code
    (convert_general_message_designation_to_list hidden_messages) 0
    (p.model_engine.getD cfg.default_model_engine) p
    (st.conversation.get_chosen_indices_and_messages
      (convert_general_message_designation_to_list hidden_messages))
    (convert_general_message_designation_to_list hidden_messages) st h

/-- C5: A failed LLM attempt inside the loop produces exactly one
`FailedChatgptResponse` action — recording the hidden-message set used for
the attempt and the captured failure — and applying it leaves the
conversation's message sequence unchanged (first conjunct, an exact equation
for `_try_get_and_append_chatgpt_response` on a gateway failure); and across
a whole `get_and_append_assistant_message` run no attempt goes unlogged: the
number of `FailedChatgptResponse` actions added to the log equals the number
of failed attempts (second conjunct). -/
theorem failed_attempt_logged_exactly_once (cfg : ManagerConfig)
    (e : LLMFailure) (tag : Option String) (is_code : Bool)
    (previous_code : Option String) (hid : List Nat)
    (p : OpenaiCallParameters) (st : ManagerState)
    (hidden_messages : Option (List Nat)) :
    try_get_and_append_chatgpt_response cfg (Except.error e) tag is_code
      previous_code hid p st =
      (Except.error e,
       ⟨st.conversation,
        st.actions ++ [ConversationAction.failedChatgptResponse hid e]⟩) ∧
    numFailed (get_and_append_assistant_message cfg tag is_code previous_code
        hidden_messages p st).state.actions =
      numFailed st.actions +
        (match (get_and_append_assistant_message cfg tag is_code previous_code
            hidden_messages p st).result with
         | Except.ok _ => (get_and_append_assistant_message cfg tag is_code
            previous_code hidden_messages p st).attempts - 1
         | Except.error _ => (get_and_append_assistant_message cfg tag is_code
            previous_code hidden_messages p st).attempts) := by
  refine ⟨rfl, ?_⟩
  obtain ⟨_, _, hok, herr, _⟩ := recoveryLoop_spec cfg tag is_code previous_code
    (convert_general_message_designation_to_list hidden_messages) 0
    (p.model_engine.getD cfg.default_model_engine) p
    (st.conversation.get_chosen_indices_and_messages
      (convert_general_message_designation_to_list hidden_messages))
    (convert_general_message_designation_to_list hidden_messages) st
  rw [show get_and_append_assistant_message cfg tag is_code previous_code
      hidden_messages p st = recoveryLoop cfg tag is_code previous_code
      (convert_general_message_designation_to_list hidden_messages) 0
      (p.model_engine.getD cfg.default_model_engine) p
      (st.conversation.get_chosen_indices_and_messages
        (convert_general_message_designation_to_list hidden_messages))
      (convert_general_message_designation_to_list hidden_messages) st from rfl]
  rcases hres : (recoveryLoop cfg tag is_code previous_code
      (convert_general_message_designation_to_list hidden_messages) 0
      (p.model_engine.getD cfg.default_model_engine) p
      (st.conversation.get_chosen_indices_and_messages
        (convert_general_message_designation_to_list hidden_messages))
      (convert_general_message_designation_to_list hidden_messages) st).result
    with e' | m
  · exact (herr e' hres).2
  · exact (hok m hres).2.2.2.2.1


/-- C7: On the conversation [System, User("Q1")] with no caller-hidden
messages, a gateway failing every call with CONTEXT_TOO_LONG, and the
starting model at the top of the ordering, `get_and_append_assistant_message`
makes exactly 2 gateway attempts (the initial one, then one after hiding the
sole visible non-system message, index 1), logs 2 failures, leaves the
conversation unchanged, and raises the fatal error. -/
theorem two_visible_exhaustion_run :
    (get_and_append_assistant_message alwaysFailConfig none false none none {}
      twoMessageState).attempts = 2 ∧
    (get_and_append_assistant_message alwaysFailConfig none false none none {}
      twoMessageState).actual_hidden_messages = [1] ∧
    (get_and_append_assistant_message alwaysFailConfig none false none none {}
      twoMessageState).result =
      Except.error "Failed accessing openai despite removing all messages from context." ∧
    numFailed (get_and_append_assistant_message alwaysFailConfig none false none none {}
      twoMessageState).state.actions = 2 ∧
    (get_and_append_assistant_message alwaysFailConfig none false none none {}
      twoMessageState).state.conversation.messages =
      twoMessageState.conversation.messages := by
  refine ⟨?_, ?_, ?_, ?_, ?_⟩ <;>
    simp +decide [get_and_append_assistant_message, recoveryLoop,
      try_get_and_append_chatgpt_response, convert_general_message_designation_to_list,
      Conversation.get_chosen_indices_and_messages, Conversation.get_chosen_messages,
      applyAndLog, applyAction, numFailed, isFailedAction,
      twoMessageState, sysMessage, userMessage1, alwaysFailConfig]


/-- C2: In the recovery loop, model escalation strictly precedes message
removal: after a failed LLM attempt, if the current model is below
`MAX_MODEL_ENGINE`, the next iteration runs with the next model in the total
ordering and with the working list and the hidden-message set passed
unchanged — the whole effect of the step is the one failure log entry — so a
message can be removed from the working set only when no higher model
remains. -/
theorem model_escalation_precedes_removal (cfg : ManagerConfig)
    (tag : Option String) (is_code : Bool) (previous_code : Option String)
    (hidden_messages : List Nat) (attempt : Nat) (model : ModelEngine)
    (p : OpenaiCallParameters) (indices : List (Nat × Message))
    (actual : List Nat) (st : ManagerState) (e : LLMFailure)
    (hgw : cfg.gateway attempt = Except.error e)
    (hlt : model < cfg.max_model_engine) :
    recoveryLoop cfg tag is_code previous_code hidden_messages attempt model p
      indices actual st =
    { recoveryLoop cfg tag is_code previous_code hidden_messages (attempt + 1)
        model.get_next { p with model_engine := some model.get_next }
        indices actual
        ⟨st.conversation,
         st.actions ++ [ConversationAction.failedChatgptResponse actual e]⟩ with
      attempts := (recoveryLoop cfg tag is_code previous_code hidden_messages
        (attempt + 1) model.get_next { p with model_engine := some model.get_next }
        indices actual
        ⟨st.conversation,
         st.actions ++ [ConversationAction.failedChatgptResponse actual e]⟩).attempts + 1 } :=
  recoveryLoop_bump_eq cfg tag is_code previous_code hidden_messages attempt model
    p indices actual st e hgw hlt

/-- Witness for C2: a concrete failed first attempt below the maximum model
escalates from GPT4 to GPT4_TURBO with the working list and hidden set
unchanged. -/
theorem model_escalation_precedes_removal_witness :
    recoveryLoop escalatingFailConfig none false none [] 0 ModelEngine.GPT4 {}
      [(0, sysMessage), (1, userMessage1)] [] twoMessageState =
    { recoveryLoop escalatingFailConfig none false none [] 1 ModelEngine.GPT4_TURBO
        { model_engine := some ModelEngine.GPT4_TURBO }
        [(0, sysMessage), (1, userMessage1)] []
        ⟨twoMessageState.conversation,
         [ConversationAction.failedChatgptResponse []
            ⟨FailureKind.RATE_LIMIT, "rate limited"⟩]⟩ with
      attempts := (recoveryLoop escalatingFailConfig none false none [] 1
        ModelEngine.GPT4_TURBO { model_engine := some ModelEngine.GPT4_TURBO }
        [(0, sysMessage), (1, userMessage1)] []
        ⟨twoMessageState.conversation,
         [ConversationAction.failedChatgptResponse []
            ⟨FailureKind.RATE_LIMIT, "rate limited"⟩]⟩).attempts + 1 } :=
  model_escalation_precedes_removal escalatingFailConfig none false none [] 0
    ModelEngine.GPT4 {} [(0, sysMessage), (1, userMessage1)] [] twoMessageState
    ⟨FailureKind.RATE_LIMIT, "rate limited"⟩ rfl (by decide)

/-- C4 counterexample: on the length-3 conversation with caller-hidden set
{0}, the visible indices are [1, 2] and the earliest visible message other
than index 0 is index 1; yet the single firing of the context-shrink branch
adds index 2 — position 1 of the working list — so the branch does not add
the earliest visible non-index-0 message, refuting the claim as stated. -/
theorem shrink_branch_counterexample :
    ((threeMessageState.conversation.get_chosen_indices_and_messages [0]).map
      Prod.fst = [1, 2]) ∧
    (get_and_append_assistant_message alwaysFailConfig none false none
      (some [0]) {} threeMessageState).actual_hidden_messages = [0, 2] := by
  refine ⟨?_, ?_⟩ <;>
    simp +decide [get_and_append_assistant_message, recoveryLoop,
      try_get_and_append_chatgpt_response, convert_general_message_designation_to_list,
      Conversation.get_chosen_indices_and_messages, Conversation.get_chosen_messages,
      applyAndLog, applyAction, threeMessageState, sysMessage, userMessage1,
      assistantMessage1, alwaysFailConfig]

/-- C4 (amended): each firing of the context-shrink branch adds the
conversation index of the entry at position 1 of the current working list —
the second remaining visible message, which coincides with the earliest
visible message other than index 0 whenever index 0 is visible — and index 0
is never added to the hidden set by the branch.  First conjunct: the exact
step equation of the shrink branch; second conjunct: in any run, every index
the loop appends beyond the caller's hidden list is nonzero. -/
theorem shrink_branch_adds_second_visible_entry :
    (∀ (cfg : ManagerConfig) (tag : Option String) (is_code : Bool)
      (previous_code : Option String) (hidden_messages : List Nat) (attempt : Nat)
      (model : ModelEngine) (p : OpenaiCallParameters)
      (indices : List (Nat × Message)) (actual : List Nat) (st : ManagerState)
      (e : LLMFailure), cfg.gateway attempt = Except.error e →
      ¬ model < cfg.max_model_engine → ∀ (hlen : 1 < indices.length),
      recoveryLoop cfg tag is_code previous_code hidden_messages attempt model p
        indices actual st =
      { recoveryLoop cfg tag is_code previous_code hidden_messages (attempt + 1)
          model p (indices.eraseIdx 1) (actual ++ [(indices.get ⟨1, hlen⟩).1])
          ⟨st.conversation,
           st.actions ++ [ConversationAction.failedChatgptResponse actual e]⟩ with
        attempts := (recoveryLoop cfg tag is_code previous_code hidden_messages
          (attempt + 1) model p (indices.eraseIdx 1)
          (actual ++ [(indices.get ⟨1, hlen⟩).1])
          ⟨st.conversation,
           st.actions ++ [ConversationAction.failedChatgptResponse actual e]⟩).attempts + 1 }) ∧
    (∀ (cfg : ManagerConfig) (tag : Option String) (is_code : Bool)
      (previous_code : Option String) (hidden_messages : Option (List Nat))
      (p : OpenaiCallParameters) (st : ManagerState),
      ∃ added, (get_and_append_assistant_message cfg tag is_code previous_code
          hidden_messages p st).actual_hidden_messages =
        convert_general_message_designation_to_list hidden_messages ++ added ∧
        ∀ i ∈ added, i ≠ 0) := by
  constructor
  · intro cfg tag is_code previous_code hidden_messages attempt model p indices
      actual st e hgw hlt hlen
    exact recoveryLoop_shrink_eq cfg tag is_code previous_code hidden_messages
      attempt model p indices actual st e hgw hlt hlen
  · intro cfg tag is_code previous_code hidden_messages p st
    obtain ⟨_, _, _, _, added, hadd, hsrc⟩ := recoveryLoop_spec cfg tag is_code
      previous_code (convert_general_message_designation_to_list hidden_messages) 0
      (p.model_engine.getD cfg.default_model_engine) p
      (st.conversation.get_chosen_indices_and_messages
        (convert_general_message_designation_to_list hidden_messages))
      (convert_general_message_designation_to_list hidden_messages) st
    refine ⟨added, hadd, ?_⟩
    intro i hi
    obtain ⟨q, hq, hq2⟩ := hsrc i hi
    have := chosen_tail_fst_ne_zero st.conversation
      (convert_general_message_designation_to_list hidden_messages) q hq
    omega

/-- Witness for C4 (amended): a concrete firing of the shrink branch on the
working list [(0, System), (1, User)] hides index 1, the entry at position 1
of the list. -/
theorem shrink_branch_adds_second_visible_entry_witness :
    recoveryLoop alwaysFailConfig none false none [] 0 ModelEngine.GPT4_TURBO {}
      [(0, sysMessage), (1, userMessage1)] [] twoMessageState =
    { recoveryLoop alwaysFailConfig none false none [] 1 ModelEngine.GPT4_TURBO {}
        [(0, sysMessage)] [1]
        ⟨twoMessageState.conversation,
         [ConversationAction.failedChatgptResponse []
            ⟨FailureKind.CONTEXT_TOO_LONG, "context too long"⟩]⟩ with
      attempts := (recoveryLoop alwaysFailConfig none false none [] 1
        ModelEngine.GPT4_TURBO {} [(0, sysMessage)] [1]
        ⟨twoMessageState.conversation,
         [ConversationAction.failedChatgptResponse []
            ⟨FailureKind.CONTEXT_TOO_LONG, "context too long"⟩]⟩).attempts + 1 } :=
  shrink_branch_adds_second_visible_entry.1 alwaysFailConfig none false none [] 0
    ModelEngine.GPT4_TURBO {} [(0, sysMessage), (1, userMessage1)] []
    twoMessageState ⟨FailureKind.CONTEXT_TOO_LONG, "context too long"⟩ rfl
    (by decide) (by decide)


/-- C6: On a successful LLM attempt, the assistant `Message` built by
`_try_get_and_append_chatgpt_response` has its `context` equal to the exact
ordered message set sent to the gateway (the conversation minus the hidden
indices of that attempt), an `AppendChatgptResponse` action carrying that
hidden set and the message is the last action logged, and the message is
both returned and appended at the end of the conversation. -/
theorem success_appends_message_with_exact_context (cfg : ManagerConfig)
    (tag : Option String) (is_code : Bool) (previous_code : Option String)
    (hidden_messages : Option (List Nat)) (p : OpenaiCallParameters)
    (st : ManagerState) (m : Message)
    (h : (get_and_append_assistant_message cfg tag is_code previous_code
      hidden_messages p st).result = Except.ok m) :
    m.context = st.conversation.get_chosen_messages
      (get_and_append_assistant_message cfg tag is_code previous_code
        hidden_messages p st).actual_hidden_messages ∧
    m.role = Role.ASSISTANT ∧
    (get_and_append_assistant_message cfg tag is_code previous_code
      hidden_messages p st).state.conversation.messages =
      st.conversation.messages ++ [m] ∧
    (get_and_append_assistant_message cfg tag is_code previous_code
      hidden_messages p st).state.actions.getLast? =
      some (ConversationAction.appendChatgptResponse
        (get_and_append_assistant_message cfg tag is_code previous_code
          hidden_messages p st).actual_hidden_messages m) := by
  obtain ⟨_, _, hok, _, _⟩ := recoveryLoop_spec cfg tag is_code previous_code
    (convert_general_message_designation_to_list hidden_messages) 0
    (p.model_engine.getD cfg.default_model_engine) p
    (st.conversation.get_chosen_indices_and_messages
      (convert_general_message_designation_to_list hidden_messages))
    (convert_general_message_designation_to_list hidden_messages) st
  rw [show get_and_append_assistant_message cfg tag is_code previous_code
      hidden_messages p st = recoveryLoop cfg tag is_code previous_code
      (convert_general_message_designation_to_list hidden_messages) 0
      (p.model_engine.getD cfg.default_model_engine) p
      (st.conversation.get_chosen_indices_and_messages
        (convert_general_message_designation_to_list hidden_messages))
      (convert_general_message_designation_to_list hidden_messages) st from rfl] at h ⊢
  obtain ⟨c1, c2, c3, c4, c5, c6⟩ := hok m h
  exact ⟨c4, c2, c1, c6⟩

/-- Witness for C6: on [System, User, Assistant, User] with no hidden
messages, the first call fails, the second (with the stronger model)
succeeds; one failure and one success action are logged, the returned
message's context is the full 4-message input, and the message is appended
as index 4. -/
theorem success_appends_message_with_exact_context_witness :
    (get_and_append_assistant_message secondTryConfig none false none none {}
      fourMessageState).result = Except.ok responseMessage ∧
    responseMessage.context = fourMessageState.conversation.messages ∧
    (get_and_append_assistant_message secondTryConfig none false none none {}
      fourMessageState).attempts = 2 ∧
    numFailed (get_and_append_assistant_message secondTryConfig none false none
      none {} fourMessageState).state.actions = 1 ∧
    (responseMessage.context = fourMessageState.conversation.get_chosen_messages
      (get_and_append_assistant_message secondTryConfig none false none none {}
        fourMessageState).actual_hidden_messages ∧
     responseMessage.role = Role.ASSISTANT ∧
     (get_and_append_assistant_message secondTryConfig none false none none {}
       fourMessageState).state.conversation.messages =
       fourMessageState.conversation.messages ++ [responseMessage] ∧
     (get_and_append_assistant_message secondTryConfig none false none none {}
       fourMessageState).state.actions.getLast? =
       some (ConversationAction.appendChatgptResponse
         (get_and_append_assistant_message secondTryConfig none false none none {}
           fourMessageState).actual_hidden_messages responseMessage)) := by
  have hres : (get_and_append_assistant_message secondTryConfig none false none
      none {} fourMessageState).result = Except.ok responseMessage := by
    simp +decide [get_and_append_assistant_message, recoveryLoop,
      try_get_and_append_chatgpt_response, convert_general_message_designation_to_list,
      Conversation.get_chosen_indices_and_messages, Conversation.get_chosen_messages,
      applyAndLog, applyAction, OpenaiCallParameters.is_all_none,
      fourMessageState, sysMessage, userMessage1, assistantMessage1, userMessage2,
      secondTryConfig, responseMessage]
  refine ⟨hres, rfl, ?_, ?_, success_appends_message_with_exact_context
    secondTryConfig none false none none {} fourMessageState responseMessage hres⟩ <;>
    simp +decide [get_and_append_assistant_message, recoveryLoop,
      try_get_and_append_chatgpt_response, convert_general_message_designation_to_list,
      Conversation.get_chosen_indices_and_messages, Conversation.get_chosen_messages,
      applyAndLog, applyAction, numFailed, isFailedAction,
      OpenaiCallParameters.is_all_none, fourMessageState, sysMessage, userMessage1,
      assistantMessage1, userMessage2, secondTryConfig]


/-- C8: Under the precondition that the last logged action is an
`AppendChatgptResponse` and the conversation's last message is an assistant
message, `regenerate_previous_response` deletes that last message and
re-invokes `get_and_append_assistant_message` with the same tag, the
hidden-message set read from the logged action, and the call parameters
recorded on the deleted message; when that run returns a message, it is an
assistant message with the same tag.  A violated precondition makes the
operation fail outright (the source's `assert`, rendered as `none`), not
recover. -/
theorem regenerate_reuses_recorded_parameters (cfg : ManagerConfig)
    (st : ManagerState) (hid : List Nat) (recorded : Message) (lm : Message)
    (h1 : st.actions.getLast? =
      some (ConversationAction.appendChatgptResponse hid recorded))
    (h2 : st.conversation.messages.getLast? = some lm)
    (h3 : lm.role = Role.ASSISTANT) :
    regenerate_previous_response cfg st =
      some (get_and_append_assistant_message cfg lm.tag lm.is_code
        (if lm.is_code then lm.previous_code else none) (some hid)
        (lm.openai_call_parameters.getD {}) (delete_last_message st)) ∧
    (delete_last_message st).conversation.messages =
      st.conversation.messages.dropLast ∧
    ∀ m, (get_and_append_assistant_message cfg lm.tag lm.is_code
        (if lm.is_code then lm.previous_code else none) (some hid)
        (lm.openai_call_parameters.getD {}) (delete_last_message st)).result =
        Except.ok m →
      m.tag = lm.tag ∧ m.role = Role.ASSISTANT := by
  refine ⟨?_, rfl, ?_⟩
  · unfold regenerate_previous_response
    rw [h1, h2]
    dsimp only
    rw [if_pos h3]
  · intro m hm
    obtain ⟨_, _, hok, _, _⟩ := recoveryLoop_spec cfg lm.tag lm.is_code
      (if lm.is_code then lm.previous_code else none) hid 0
      ((lm.openai_call_parameters.getD {}).model_engine.getD cfg.default_model_engine)
      (lm.openai_call_parameters.getD {})
      ((delete_last_message st).conversation.get_chosen_indices_and_messages hid)
      hid (delete_last_message st)
    rw [show get_and_append_assistant_message cfg lm.tag lm.is_code
        (if lm.is_code then lm.previous_code else none) (some hid)
        (lm.openai_call_parameters.getD {}) (delete_last_message st) =
        recoveryLoop cfg lm.tag lm.is_code
        (if lm.is_code then lm.previous_code else none) hid 0
        ((lm.openai_call_parameters.getD {}).model_engine.getD cfg.default_model_engine)
        (lm.openai_call_parameters.getD {})
        ((delete_last_message st).conversation.get_chosen_indices_and_messages hid)
        hid (delete_last_message st) from rfl] at hm
    obtain ⟨_, c2, c3, _, _, _⟩ := hok m hm
    exact ⟨c3, c2⟩


/-- Witness for C8: on a conversation ending in the assistant message tagged
"draft1" whose logged action recorded hidden-messages = [2], regeneration
deletes that message and re-runs acquisition with hidden-messages = [2], the
same tag, and the recorded call parameters. -/
theorem regenerate_reuses_recorded_parameters_witness :
    regeneratedState.actions.getLast? =
      some (ConversationAction.appendChatgptResponse [2] prevAssistant) ∧
    regeneratedState.conversation.messages.getLast? = some prevAssistant ∧
    prevAssistant.role = Role.ASSISTANT ∧
    regenerate_previous_response alwaysOkConfig regeneratedState =
      some (get_and_append_assistant_message alwaysOkConfig prevAssistant.tag
        prevAssistant.is_code
        (if prevAssistant.is_code then prevAssistant.previous_code else none)
        (some [2]) (prevAssistant.openai_call_parameters.getD {})
        (delete_last_message regeneratedState)) :=
  ⟨rfl, rfl, rfl,
   (regenerate_reuses_recorded_parameters alwaysOkConfig regeneratedState [2]
     prevAssistant prevAssistant rfl rfl rfl).1⟩

/-- Witness for C3: on the two-message conversation with no hidden messages
and the starting model already maximal, the visible list has length 2 ≥ 1
and the always-failing run makes 2 ≤ 0 + 2 attempts. -/
theorem escalation_attempt_bound_witness :
    1 ≤ (twoMessageState.conversation.get_chosen_indices_and_messages
      (convert_general_message_designation_to_list none)).length ∧
    (get_and_append_assistant_message alwaysFailConfig none false none none {}
      twoMessageState).attempts ≤
      (alwaysFailConfig.max_model_engine.idx -
        (OpenaiCallParameters.model_engine {} |>.getD
          alwaysFailConfig.default_model_engine).idx) +
      (twoMessageState.conversation.get_chosen_indices_and_messages
        (convert_general_message_designation_to_list none)).length :=
  ⟨by decide,
   escalation_attempt_bound alwaysFailConfig none false none none {}
     twoMessageState (by decide)⟩

end DataToPaper
